import Mathlib

/-!
Verification of the DaVinci Resolve MCP bridge (resolve_api.py, server.py).

The development shallowly embeds the two Python modules:

* `resolve_api.py` — the `ResolveAPI` connector class.  Its mutable instance
  attributes (`resolve`, `fusion`, `project_manager`, `current_project`,
  `media_storage`, `media_pool`) become the record `APIState`; each method
  becomes a Lean function over `APIState`, threading an explicit model of the
  external application (`ExtState`, a deterministic stand-in) and, where a
  claim quantifies over arbitrary external behaviour, an `Except PyExn`
  parameter standing for the wrapped external call.  Python exceptions are
  modelled by the `Except PyExn` monad; a Python `None` handle is `Option.none`.

* `server.py` — each embedded resource/tool handler mirrors its Python body.
  Python attribute lookup on the `resolve_api` instance is made explicit by
  `callGuard`: calling a name that is not one of the methods actually defined
  in the `ResolveAPI` class body raises `AttributeError`, exactly as CPython
  does.  This matters because in the source file `create_fusion_node` is a
  module-level `def` (column 0) and every `def` after it (from
  `get_current_comp` to the project exporter) is indented inside its body, so
  none of those names is an attribute of a `ResolveAPI` instance.
-/

/-- Python exception values relevant to this program. -/
inductive PyExn where
  | attributeError (attr : String)
  | importError
  | runtimeError (msg : String)
  deriving DecidableEq, Repr

/-- Names bound by `def` statements in the body of `class ResolveAPI`
(resolve_api.py lines 21-485, one indentation level inside the class).
Transcribed in source order; these are the only methods of the class. -/
def resolveAPIClassDefs : List String :=
  ["__init__", "_find_scripting_module", "_connect_to_resolve", "refresh",
   "is_connected", "get_project_manager", "get_current_project",
   "get_media_storage", "get_media_pool", "get_fusion", "open_page",
   "create_project", "load_project", "save_project", "get_project_name",
   "create_timeline", "get_current_timeline", "get_timeline_count",
   "get_timeline_by_index", "set_current_timeline", "get_mounted_volumes",
   "get_sub_folders", "get_files", "add_items_to_media_pool",
   "get_root_folder", "get_current_folder", "add_sub_folder",
   "get_folder_clips", "get_folder_name", "get_folder_sub_folders",
   "append_to_timeline", "create_timeline_from_clips",
   "import_timeline_from_file", "execute_lua"]

/-- Names bound by `def` statements nested inside the body of the
module-level function `create_fusion_node` (resolve_api.py lines 524-1081:
they sit at the same indentation as that function's own statements, hence are
local to it and are never attributes of `ResolveAPI`).  Source order. -/
def createFusionNodeNestedDefs : List String :=
  ["get_current_comp", "get_timeline_items", "set_clip_property",
   "get_color_page_nodes", "add_color_node", "get_project_settings",
   "set_project_setting", "start_render", "get_render_status",
   "add_timeline_marker", "get_clip_metadata", "get_gallery",
   "get_gallery_albums", "save_still", "apply_still", "add_track",
   "set_track_name", "enable_track", "get_audio_volume", "set_audio_volume",
   "set_track_volume", "get_version_count", "set_current_version", "play",
   "stop", "get_current_timecode", "set_playhead_position", "export_project",
   "import_project"]

/-- Whether attribute lookup of a method name on a `ResolveAPI` instance
succeeds: only names defined in the class body are found. -/
def hasMethod (m : String) : Bool := resolveAPIClassDefs.contains m

/-- Python attribute access `resolve_api.m(...)` as performed by the server
handlers: if `m` is not a method of the class, CPython raises
`AttributeError` before any call happens; otherwise the call `k` runs. -/
def callGuard {α : Type} (m : String) (k : Except PyExn α) : Except PyExn α :=
  if hasMethod m then k else Except.error (PyExn.attributeError m)

/-! ## Deterministic stand-in for the external application

The external editing application is not part of this repository; following
the spec (testable properties are stated "against a stand-in for the external
application"), its observable state is modelled by `ExtState`.  Handles are
indices into that state: a project handle is an index into `projects`, the
media pool / gallery of project `h` is identified with `h`, a timeline handle
is a pair (project index, timeline index), a clip handle records the track it
sits on.  A handle held by the connector keeps denoting the same external
object even after the external current project changes. -/

/-- A timeline inside the stand-in application. -/
structure ExtTimeline where
  tlName : String
  videoItems : List String
  audioItems : List String
  startFrame : Int
  endFrame : Int
  videoTrackCount : Nat
  deriving DecidableEq, Repr

/-- A media-pool folder inside the stand-in application. -/
structure ExtFolder where
  folderName : String
  clipNames : List String
  deriving DecidableEq, Repr

/-- A project inside the stand-in application. -/
structure ExtProject where
  projName : String
  timelines : List ExtTimeline
  currentTimelineIdx : Option Nat
  currentFolder : Option ExtFolder
  galleryAlbums : List String
  deriving DecidableEq, Repr

/-- The stand-in external application state.  `createSucceeds` is the
stand-in behaviour of project creation; when it succeeds the newly created
project becomes the external current project (as in the real application). -/
structure ExtState where
  projects : List ExtProject
  currentProjectIdx : Option Nat
  createSucceeds : Bool
  deriving DecidableEq, Repr

/-- A timeline handle: (project index, timeline index). -/
abbrev TimelineH := Nat × Nat

/-- A clip handle: (project index, timeline index, track type, item index). -/
abbrev ClipH := Nat × Nat × String × Nat

def ExtState.projNameAt (ext : ExtState) (h : Nat) : String :=
  ((ext.projects.get? h).map ExtProject.projName).getD ""

def ExtState.timelineCountAt (ext : ExtState) (h : Nat) : Nat :=
  ((ext.projects.get? h).map (fun p => p.timelines.length)).getD 0

def ExtState.currentTimelineOf (ext : ExtState) (h : Nat) : Option TimelineH :=
  (ext.projects.get? h).bind (fun p => p.currentTimelineIdx.map (fun t => (h, t)))

def ExtState.timelineAt (ext : ExtState) (t : TimelineH) : Option ExtTimeline :=
  (ext.projects.get? t.1).bind (fun p => p.timelines.get? t.2)

def ExtState.timelineName (ext : ExtState) (t : TimelineH) : String :=
  ((ext.timelineAt t).map ExtTimeline.tlName).getD ""

def ExtState.currentFolderAt (ext : ExtState) (h : Nat) : Option ExtFolder :=
  (ext.projects.get? h).bind ExtProject.currentFolder

def ExtState.galleryAlbumsAt (ext : ExtState) (h : Nat) : List String :=
  ((ext.projects.get? h).map ExtProject.galleryAlbums).getD []

/-- External `GetItemListInTrack`: the stand-in models track 1 of the video
and audio track kinds; the returned clip handles record their position. -/
def ExtState.itemListInTrack (ext : ExtState) (t : TimelineH)
    (trackType : String) (trackIndex : Nat) : List ClipH :=
  match ext.timelineAt t with
  | none => []
  | some tl =>
    if trackIndex = 1 then
      if trackType = "video" then
        (List.range tl.videoItems.length).map (fun i => (t.1, t.2, "video", i))
      else if trackType = "audio" then
        (List.range tl.audioItems.length).map (fun i => (t.1, t.2, "audio", i))
      else []
    else []

/-- External `GetName` on a clip handle. -/
def ExtState.clipName (ext : ExtState) (c : ClipH) : String :=
  match ext.timelineAt (c.1, c.2.1) with
  | none => ""
  | some tl =>
    if c.2.2.1 = "audio" then (tl.audioItems.get? c.2.2.2).getD ""
    else (tl.videoItems.get? c.2.2.2).getD ""

/-- External `CreateProject` of the stand-in: on success the new project is
appended and becomes current, and its handle is returned; on failure the
state is unchanged and a null handle is returned. -/
def ExtState.createProject (ext : ExtState) (name : String) :
    ExtState × Option Nat :=
  if ext.createSucceeds then
    ({ ext with
        projects := ext.projects ++
          [{ projName := name, timelines := [], currentTimelineIdx := none,
             currentFolder := none, galleryAlbums := [] }],
        currentProjectIdx := some ext.projects.length },
     some ext.projects.length)
  else (ext, none)

/-! ## The connector state -/

/-- The mutable instance attributes of `ResolveAPI`, in `__init__` order
(resolve_api.py lines 26-31).  A `none` field is Python `None`. -/
structure APIState where
  resolve : Option Unit
  fusion : Option Unit
  project_manager : Option Unit
  current_project : Option Nat
  media_storage : Option Unit
  media_pool : Option Nat
  deriving DecidableEq, Repr

/-- resolve_api.py lines 98-105: `is_connected` returns whether the
application handle is non-null. -/
def ResolveAPI.is_connected (s : APIState) : Bool := s.resolve.isSome

/-- resolve_api.py lines 116-125: `get_current_project` re-queries the
project manager (when available) for the current project, stores it, and
returns it; without a project manager it returns the cached value. -/
def ResolveAPI.get_current_project (s : APIState) (ext : ExtState) :
    APIState × Option Nat :=
  match s.project_manager with
  | some _ =>
    ({ s with current_project := ext.currentProjectIdx }, ext.currentProjectIdx)
  | none => (s, s.current_project)

/-- resolve_api.py lines 136-145: `get_media_pool` re-queries the cached
current project (when present) for its media pool, stores it, and returns
it; the media pool of project `h` is identified with `h`. -/
def ResolveAPI.get_media_pool (s : APIState) (_ext : ExtState) :
    APIState × Option Nat :=
  match s.current_project with
  | some h => ({ s with media_pool := some h }, some h)
  | none => (s, s.media_pool)

/-- resolve_api.py lines 212-221: `save_project` returns `False` when no
project handle is cached; otherwise it returns whatever the external
`SaveProject()` call does — there is no `try` around it, so a raised
exception is the accessor's own result.  `saveResult` is that external
call's behaviour. -/
def ResolveAPI.save_project (s : APIState)
    (saveResult : Except PyExn Bool) : Except PyExn Bool :=
  match s.current_project with
  | none => Except.ok false
  | some _ => saveResult

/-- resolve_api.py lines 223-232: `get_project_name` reads the cached
current-project handle (it does not re-query the project manager) and asks
the external object for its name. -/
def ResolveAPI.get_project_name (s : APIState) (ext : ExtState) :
    Option String :=
  match s.current_project with
  | none => none
  | some h => some (ext.projNameAt h)

/-- resolve_api.py lines 249-258: `get_current_timeline` reads the cached
current-project handle and asks that project for its current timeline. -/
def ResolveAPI.get_current_timeline (s : APIState) (ext : ExtState) :
    Option TimelineH :=
  match s.current_project with
  | none => none
  | some h => ext.currentTimelineOf h

/-- resolve_api.py lines 299-308: `get_mounted_volumes` returns `[]` when no
media-storage handle is cached; otherwise it returns whatever the external
`GetMountedVolumes()` call does — again with no `try`, so an exception
propagates.  `volsResult` is that external call's behaviour. -/
def ResolveAPI.get_mounted_volumes (s : APIState)
    (volsResult : Except PyExn (List String)) : Except PyExn (List String) :=
  match s.media_storage with
  | none => Except.ok []
  | some _ => volsResult

/-- Python `str.lower()` on the ASCII page names this program handles,
modelled as a structurally computable map over the characters (the built-in
`String.toLower` is defined by well-founded recursion and does not reduce
definitionally). -/
def pyLower (s : String) : String := String.mk (s.data.map Char.toLower)

/-- resolve_api.py lines 156-172: `open_page`.  Returns the success flag and
the list of `OpenPage` arguments forwarded to the external application. -/
def valid_pages : List String :=
  ["media", "edit", "fusion", "color", "fairlight", "deliver"]

def ResolveAPI.open_page (s : APIState) (page_name : String) :
    Bool × List String :=
  match s.resolve with
  | none => (false, [])
  | some _ =>
    if valid_pages.contains (pyLower page_name) then
      (true, [(pyLower page_name)])
    else (false, [])

/-- resolve_api.py lines 174-191: `create_project`.  Returns the updated
connector state, the updated external state, the success flag, and the
number of external calls made. -/
def ResolveAPI.create_project (s : APIState) (ext : ExtState)
    (project_name : String) : APIState × ExtState × Bool × Nat :=
  match s.project_manager with
  | none => (s, ext, false, 0)
  | some _ =>
    match ext.createProject project_name with
    | (ext1, some newProj) =>
      ({ s with current_project := some newProj, media_pool := some newProj },
       ext1, true, 1)
    | (ext1, none) => (s, ext1, false, 1)

/-- resolve_api.py lines 541-561 (a `def` nested in `create_fusion_node`,
hence unreachable as a method): the intended `get_timeline_items` body —
current timeline, then `GetItemListInTrack`. -/
def ResolveAPI.get_timeline_items (s : APIState) (ext : ExtState)
    (track_type : String) (track_index : Nat) : List ClipH :=
  match ResolveAPI.get_current_timeline s ext with
  | none => []
  | some t => ext.itemListInTrack t track_type track_index

/-- resolve_api.py lines 741-755 (nested, unreachable as a method): the
intended `get_gallery` body; the gallery of project `h` is identified
with `h`. -/
def ResolveAPI.get_gallery (s : APIState) : Option Nat :=
  match s.current_project with
  | none => none
  | some h => some h

/-- resolve_api.py lines 757-771 (nested, unreachable as a method): the
intended `get_gallery_albums` body. -/
def ResolveAPI.get_gallery_albums (s : APIState) (ext : ExtState) :
    List String :=
  match ResolveAPI.get_gallery s with
  | none => []
  | some h => ext.galleryAlbumsAt h

/-- resolve_api.py lines 902-919 (nested, unreachable as a method): the
intended `set_audio_volume` body; the stand-in `SetAudioVolume` succeeds and
the forwarded (clip, volume) pair is recorded. -/
def ResolveAPI.set_audio_volume (clip : ClipH) (volume : Rat) :
    Bool × List (ClipH × Rat) :=
  (true, [(clip, volume)])

/-! ## Module discovery (resolve_api.py lines 34-58) -/

/-- The environment `_find_scripting_module` reads: the override variable,
the Windows `PROGRAMDATA` variable, the home directory, the value of
`platform.system()`, the filesystem existence predicate, and the current
`sys.path`. -/
structure DiscoveryEnv where
  resolveScriptPath : Option String
  programData : Option String
  homeDir : String
  system : String
  pathExists : String → Bool
  sysPath : List String

/-- The Windows candidate install path (an `os.path.join` of `PROGRAMDATA`,
defaulting to `C:\ProgramData` when the variable is absent, with the fixed
suffix). -/
def windowsModulesPath (programData : Option String) : String :=
  (programData.getD "C:\\ProgramData") ++
    "\\Blackmagic Design\\DaVinci Resolve\\Support\\Developer\\Scripting\\Modules"

/-- The two macOS candidate install paths (system-wide, then per-user). -/
def darwinModulesPaths (home : String) : List String :=
  ["/Library/Application Support/Blackmagic Design/DaVinci Resolve/Developer/Scripting/Modules",
   home ++ "/Library/Application Support/Blackmagic Design/DaVinci Resolve/Developer/Scripting/Modules"]

/-- The Linux candidate install path. -/
def linuxModulesPath : String := "/opt/resolve/Developer/Scripting/Modules"

/-- The OS-keyed candidate list: `base_paths.get(system, [])`, except that
the Darwin entry is the two-element list. -/
def candidatePaths (env : DiscoveryEnv) : List String :=
  if env.system = "Darwin" then darwinModulesPaths env.homeDir
  else if env.system = "Windows" then [windowsModulesPath env.programData]
  else if env.system = "Linux" then [linuxModulesPath]
  else []

/-- The candidate loop of `_find_scripting_module` (lines 54-58): the first
candidate that exists on disk AND is not already in `sys.path` is appended
to `sys.path` and returned; candidates failing either test are skipped.
Returns the found path (if any) and the resulting `sys.path`. -/
def scanCandidates (ex : String → Bool) :
    List String → List String → Option String × List String
  | [], sysPath => (none, sysPath)
  | p :: rest, sysPath =>
    if ex p && !(sysPath.contains p) then (some p, sysPath ++ [p])
    else scanCandidates ex rest sysPath

/-- resolve_api.py lines 34-58: `_find_scripting_module`.  The override
variable wins when it is set, non-empty (Python truthiness) and exists; the
override is returned without touching `sys.path`.  Otherwise the OS-keyed
candidates are scanned. -/
def find_scripting_module (env : DiscoveryEnv) : Option String × List String :=
  match env.resolveScriptPath with
  | some p =>
    if p != "" && env.pathExists p then (some p, env.sysPath)
    else scanCandidates env.pathExists (candidatePaths env) env.sysPath
  | none => scanCandidates env.pathExists (candidatePaths env) env.sysPath

/-! ## Connecting (resolve_api.py lines 60-81) -/

/-- The behaviours of the external world that `_connect_to_resolve` touches:
the discovered script path, the module import, `scriptapp("Resolve")`, and
the four derived-handle getters.  Each `Except` value is what the
corresponding external call does (return a value, return null, or raise). -/
structure ConnectEnv where
  scriptPath : Option String
  importModule : Except PyExn Unit
  scriptapp : Except PyExn (Option Unit)
  getProjectManager : Except PyExn (Option Unit)
  getCurrentProject : Except PyExn (Option Nat)
  getMediaStorage : Except PyExn (Option Unit)
  fusionOf : Except PyExn (Option Unit)
  getMediaPool : Except PyExn (Option Nat)

def isImportErr : PyExn → Bool
  | PyExn.importError => true
  | _ => false

/-- resolve_api.py lines 60-81: `_connect_to_resolve`.  With no discovered
path it logs and returns.  The `try` block covers the module import and the
`scriptapp` call and catches ONLY `ImportError` (setting the handle null);
any other exception escapes.  On a non-null handle the four second-level
handles are derived in source order; `GetCurrentProject` is invoked on the
value `GetProjectManager` returned, so a null project manager raises
`AttributeError`.  The error branch of the result carries no state because
no caller of the Python method can observe the instance after a raise that
this development needs to track. -/
def ResolveAPI.connect_to_resolve (s : APIState) (env : ConnectEnv) :
    Except PyExn APIState :=
  match env.scriptPath with
  | none => Except.ok s
  | some _ =>
    match env.importModule.bind (fun _ => env.scriptapp) with
    | Except.error e =>
      if isImportErr e then Except.ok { s with resolve := none }
      else Except.error e
    | Except.ok app =>
      let s1 := { s with resolve := app }
      match app with
      | none => Except.ok s1
      | some _ =>
        env.getProjectManager.bind (fun pm =>
          let s2 := { s1 with project_manager := pm }
          match pm with
          | none => Except.error (PyExn.attributeError "GetCurrentProject")
          | some _ =>
            env.getCurrentProject.bind (fun cp =>
              let s3 := { s2 with current_project := cp }
              env.getMediaStorage.bind (fun ms =>
                let s4 := { s3 with media_storage := ms }
                env.fusionOf.bind (fun fu =>
                  let s5 := { s4 with fusion := fu }
                  (match cp with
                   | some _ => env.getMediaPool
                   | none => Except.ok none).bind (fun mp =>
                    Except.ok { s5 with media_pool := mp })))))

/-- A deterministic `ConnectEnv` drawn from the stand-in state: the module
imports, `scriptapp` returns `app`, and the derived getters answer from
`ext`; `found` is whether module discovery succeeds. -/
def ConnectEnv.ofExt (ext : ExtState) (found : Bool) (app : Option Unit) :
    ConnectEnv :=
  { scriptPath := if found then some linuxModulesPath else none
    importModule := Except.ok ()
    scriptapp := Except.ok app
    getProjectManager := Except.ok (some ())
    getCurrentProject := Except.ok ext.currentProjectIdx
    getMediaStorage := Except.ok (some ())
    fusionOf := Except.ok (some ())
    getMediaPool := Except.ok ext.currentProjectIdx }

/-- resolve_api.py lines 83-96: `refresh`.  Reconnects first when the
application handle is null, then (if connected) re-derives the project
manager, current project, media storage, Fusion and media pool from the
live external state. -/
def ResolveAPI.refresh (s : APIState) (ext : ExtState) (found : Bool)
    (app : Option Unit) : Except PyExn APIState :=
  (if s.resolve.isNone then
      ResolveAPI.connect_to_resolve s (ConnectEnv.ofExt ext found app)
    else Except.ok s).bind (fun s1 =>
    match s1.resolve with
    | none => Except.ok s1
    | some _ =>
      Except.ok { s1 with
        project_manager := some ()
        current_project := ext.currentProjectIdx
        media_storage := some ()
        fusion := some ()
        media_pool := ext.currentProjectIdx })

/-! ## Server handlers (server.py)

Each handler mirrors its Python body; every `resolve_api.m(...)` call goes
through `callGuard m`, the explicit attribute lookup.  Strings are built
exactly as the f-strings do (an apostrophe is written with its escape). -/

/-- server.py lines 49-57: the `system://status` resource. -/
def get_system_status (s : APIState) (ext : ExtState) : Except PyExn String := do
  let conn ← callGuard "is_connected" (pure (ResolveAPI.is_connected s))
  if !conn then return "Not connected to DaVinci Resolve."
  let pn ← callGuard "get_project_name" (pure (ResolveAPI.get_project_name s ext))
  let project_name := match pn with
    | none => "No project open"
    | some n => if n = "" then "No project open" else n
  let tl ← callGuard "get_current_timeline"
    (pure (ResolveAPI.get_current_timeline s ext))
  let timeline_name := match tl with
    | none => "No timeline open"
    | some t => ext.timelineName t
  return "Connected: Yes\nProject: " ++ project_name ++
    "\nTimeline: " ++ timeline_name

/-- server.py lines 59-67: the `project://current` resource. -/
def project_current_resource (s : APIState) (ext : ExtState) :
    Except PyExn String := do
  let conn ← callGuard "is_connected" (pure (ResolveAPI.is_connected s))
  if !conn then return "Not connected to DaVinci Resolve."
  let p ← callGuard "get_current_project"
    (pure (ResolveAPI.get_current_project s ext).2)
  match p with
  | none => return "No project open."
  | some h =>
    return "Name: " ++ ext.projNameAt h ++
      "\nTimelines: " ++ toString (ext.timelineCountAt h)

/-- server.py lines 69-79: the `timeline://current` resource. -/
def timeline_current_resource (s : APIState) (ext : ExtState) :
    Except PyExn String := do
  let conn ← callGuard "is_connected" (pure (ResolveAPI.is_connected s))
  if !conn then return "Not connected to DaVinci Resolve."
  let tl ← callGuard "get_current_timeline"
    (pure (ResolveAPI.get_current_timeline s ext))
  match tl with
  | none => return "No timeline open."
  | some t =>
    match ext.timelineAt t with
    | none => return "No timeline open."
    | some tline =>
      return "Name: " ++ tline.tlName ++
        "\nDuration: " ++ toString (tline.endFrame - tline.startFrame + 1) ++
        " frames\nVideo Tracks: " ++ toString tline.videoTrackCount

/-- server.py lines 81-94: the `mediapool://current` resource. -/
def mediapool_current_resource (s : APIState) (ext : ExtState) :
    Except PyExn String := do
  let conn ← callGuard "is_connected" (pure (ResolveAPI.is_connected s))
  if !conn then return "Not connected to DaVinci Resolve."
  let mp ← callGuard "get_media_pool" (pure (ResolveAPI.get_media_pool s ext).2)
  match mp with
  | none => return "No media pool available."
  | some h =>
    match ext.currentFolderAt h with
    | none => return "No current folder."
    | some f =>
      return "Folder: " ++ f.folderName ++
        "\nClips: " ++ toString f.clipNames.length

/-- server.py lines 96-102: the `gallery://albums` resource.  The attribute
lookup of `get_gallery_albums` fails (it is not a method of the class), so
on a connected instance this handler raises. -/
def gallery_albums_resource (s : APIState) (ext : ExtState) :
    Except PyExn String := do
  let conn ← callGuard "is_connected" (pure (ResolveAPI.is_connected s))
  if !conn then return "Not connected to DaVinci Resolve."
  let albums ← callGuard "get_gallery_albums"
    (pure (ResolveAPI.get_gallery_albums s ext))
  if albums.isEmpty then return "No albums"
  return String.intercalate "\n" albums

/-- server.py lines 104-108: the `timeline://items` resource.  It performs
no connection check; its first action is the attribute lookup of
`get_timeline_items`, which fails. -/
def timeline_items_resource (s : APIState) (ext : ExtState) :
    Except PyExn String := do
  let items ← callGuard "get_timeline_items"
    (pure (ResolveAPI.get_timeline_items s ext "video" 1))
  if items.isEmpty then return "No items"
  return String.intercalate "\n"
    (items.enum.map (fun p =>
      "Clip " ++ toString (p.1 + 1) ++ ": " ++ ext.clipName p.2))

/-- server.py lines 120-126: the `create_project` tool.  Returns the
response string, the updated connector and external states, and the number
of external calls made. -/
def server_create_project (s : APIState) (ext : ExtState) (name : String) :
    String × APIState × ExtState × Nat :=
  if (ResolveAPI.is_connected s) = false then
    ("Not connected to DaVinci Resolve.", s, ext, 0)
  else
    match ResolveAPI.create_project s ext name with
    | (s1, ext1, success, calls) =>
      ((if success then "Project \x27" ++ name ++ "\x27 created."
        else "Failed to create \x27" ++ name ++ "\x27."), s1, ext1, calls)

/-- server.py lines 160-169: the `open_page` tool.  Validation happens
before the connection check; on success the page is forwarded lowercased.
Returns the response string and the `OpenPage` arguments forwarded. -/
def server_open_page (s : APIState) (page_name : String) :
    String × List String :=
  if !(valid_pages.contains (pyLower page_name)) then
    ("Invalid page. Use: " ++ String.intercalate ", " valid_pages, [])
  else if (ResolveAPI.is_connected s) = false then
    ("Not connected to DaVinci Resolve.", [])
  else
    match ResolveAPI.open_page s (pyLower page_name) with
    | (success, calls) =>
      ((if success then "Opened \x27" ++ page_name ++ "\x27 page."
        else "Failed to open \x27" ++ page_name ++ "\x27."), calls)

/-- server.py lines 369-379: the `set_audio_volume` tool.  After the
connection check its first action is the attribute lookup of
`get_timeline_items`, which fails; the rest of the body (name resolution by
linear scan, then forwarding) is therefore unreachable.  Returns the
response string and the (clip, volume) pairs forwarded. -/
def server_set_audio_volume (s : APIState) (ext : ExtState)
    (clip_name : String) (volume : Rat) :
    Except PyExn (String × List (ClipH × Rat)) := do
  let conn ← callGuard "is_connected" (pure (ResolveAPI.is_connected s))
  if !conn then return ("Not connected to DaVinci Resolve.", [])
  let items ← callGuard "get_timeline_items"
    (pure (ResolveAPI.get_timeline_items s ext "audio" 1))
  match items.find? (fun c => ext.clipName c == clip_name) with
  | none => return ("Clip \x27" ++ clip_name ++ "\x27 not found.", [])
  | some clip =>
    let r ← callGuard "set_audio_volume"
      (pure (ResolveAPI.set_audio_volume clip volume))
    if r.1 then
      return ("Volume set to " ++ toString volume ++ " on \x27" ++
        clip_name ++ "\x27.", r.2)
    else return ("Failed to set volume.", r.2)

/-! ## Helper lemmas -/

/-- Indexing just past the original length of a list after appending one
element yields that element. -/
theorem get?_append_singleton {α : Type} (l : List α) (a : α) :
    (l ++ [a]).get? l.length = some a := by
  induction l with
  | nil => rfl
  | cons x t ih => simp [ih]

/-- The candidate loop returns the first candidate that exists and is not
already on `sys.path`, appending it; otherwise it returns the not-found
sentinel and leaves `sys.path` unchanged. -/
theorem scanCandidates_eq_find? (ex : String → Bool) (l sp : List String) :
    scanCandidates ex l sp =
      (match l.find? (fun p => ex p && !(sp.contains p)) with
       | some p => (some p, sp ++ [p])
       | none => (none, sp)) := by
  induction l with
  | nil => rfl
  | cons a t ih =>
    rw [scanCandidates]
    by_cases h : (ex a && !(sp.contains a)) = true
    · rw [if_pos h,
        List.find?_cons_of_pos (p := fun q => ex q && !(sp.contains q)) t h]
    · rw [if_neg h,
        List.find?_cons_of_neg (p := fun q => ex q && !(sp.contains q)) t h,
        ih]

/-! ## Fixtures and theorems for the claims -/

/-- A connected connector state whose cached current project is project 0
and whose external state holds one project with a two-clip audio track. -/
def extC1 : ExtState :=
  ⟨[⟨"P1", [⟨"T1", ["VClipA"], ["ClipA", "ClipB"], 0, 10, 1⟩], some 0,
     none, []⟩], some 0, true⟩

def stC1 : APIState := ⟨some (), some (), some (), some 0, some (), some 0⟩

/-- C1: in resolve_api.py, `create_fusion_node` is a module-level `def` (not
a class method) and every `def` after it — `get_current_comp` through
`import_project` — is nested inside its body, so none of those names is an
attribute of a `ResolveAPI` instance; consequently a server handler that
invokes one of them on the connected instance (the `timeline://items`
resource, the `set_audio_volume` tool) raises `AttributeError` instead of
returning a string. -/
theorem c1_nested_defs_not_methods :
    (["get_current_comp", "get_timeline_items", "set_clip_property",
      "get_gallery_albums", "set_audio_volume", "set_current_version",
      "play", "stop", "export_project", "import_project"].all
        (fun m => !(resolveAPIClassDefs.contains m) &&
          createFusionNodeNestedDefs.contains m)) = true ∧
    resolveAPIClassDefs.contains "create_fusion_node" = false ∧
    timeline_items_resource stC1 extC1 =
      Except.error (PyExn.attributeError "get_timeline_items") ∧
    server_set_audio_volume stC1 extC1 "ClipA" (1/2) =
      Except.error (PyExn.attributeError "get_timeline_items") :=
  ⟨by decide, by decide, rfl, rfl⟩

def stC2 : APIState := ⟨some (), some (), some (), some 0, some (), some 0⟩

def stC2empty : APIState := ⟨none, none, none, none, none, none⟩

/-- C2 counterexample: `save_project` and `get_mounted_volumes` have no
`try` around the external call, so on a connector with the relevant handles
present, an exception raised by the external call comes straight back out of
the accessor instead of being converted to the documented sentinel
(`False` / `[]`). -/
theorem c2_counterexample :
    ResolveAPI.save_project stC2 (Except.error (PyExn.runtimeError "boom")) =
      Except.error (PyExn.runtimeError "boom") ∧
    ResolveAPI.get_mounted_volumes stC2
        (Except.error (PyExn.runtimeError "boom")) =
      Except.error (PyExn.runtimeError "boom") := ⟨rfl, rfl⟩

/-- C2 (amended): accessors defined in the `ResolveAPI` class body guard on
an absent handle with the documented sentinel, but do not catch exceptions
from the external call: when the handle is present and the external call
raises, `save_project` and `get_mounted_volumes` propagate the exception
unchanged to their caller. -/
theorem c2_amended_boundary (s : APIState) (e : PyExn)
    (b : Except PyExn Bool) (v : Except PyExn (List String)) :
    (s.current_project = none → ResolveAPI.save_project s b = Except.ok false) ∧
    (s.current_project ≠ none →
      ResolveAPI.save_project s (Except.error e) = Except.error e) ∧
    (s.media_storage = none →
      ResolveAPI.get_mounted_volumes s v = Except.ok []) ∧
    (s.media_storage ≠ none →
      ResolveAPI.get_mounted_volumes s (Except.error e) = Except.error e) := by
  refine ⟨fun h => ?_, fun h => ?_, fun h => ?_, fun h => ?_⟩
  · simp [ResolveAPI.save_project, h]
  · match hc : s.current_project with
    | none => exact absurd hc h
    | some x => simp [ResolveAPI.save_project, hc]
  · simp [ResolveAPI.get_mounted_volumes, h]
  · match hc : s.media_storage with
    | none => exact absurd hc h
    | some x => simp [ResolveAPI.get_mounted_volumes, hc]

/-- C2 witness: the amended boundary behaviour evaluated on a connector with
no handles (sentinels) and on a fully connected connector (propagation). -/
theorem c2_amended_boundary_witness :
    ResolveAPI.save_project stC2empty (Except.error (PyExn.runtimeError "x")) =
      Except.ok false ∧
    ResolveAPI.save_project stC2 (Except.error (PyExn.runtimeError "x")) =
      Except.error (PyExn.runtimeError "x") ∧
    ResolveAPI.get_mounted_volumes stC2empty
        (Except.error (PyExn.runtimeError "x")) = Except.ok [] ∧
    ResolveAPI.get_mounted_volumes stC2
        (Except.error (PyExn.runtimeError "x")) =
      Except.error (PyExn.runtimeError "x") :=
  ⟨(c2_amended_boundary stC2empty (PyExn.runtimeError "x")
      (Except.error (PyExn.runtimeError "x"))
      (Except.error (PyExn.runtimeError "x"))).1 rfl,
   (c2_amended_boundary stC2 (PyExn.runtimeError "x")
      (Except.error (PyExn.runtimeError "x"))
      (Except.error (PyExn.runtimeError "x"))).2.1 (by decide),
   (c2_amended_boundary stC2empty (PyExn.runtimeError "x")
      (Except.error (PyExn.runtimeError "x"))
      (Except.error (PyExn.runtimeError "x"))).2.2.1 rfl,
   (c2_amended_boundary stC2 (PyExn.runtimeError "x")
      (Except.error (PyExn.runtimeError "x"))
      (Except.error (PyExn.runtimeError "x"))).2.2.2 (by decide)⟩

def extC3 : ExtState :=
  ⟨[⟨"P", [⟨"T", ["V1"], [], 0, 10, 2⟩], some 0,
     some ⟨"Master", ["c1", "c2"]⟩, ["AlbumA"]⟩], some 0, true⟩

def stC3 : APIState := ⟨some (), some (), some (), some 0, some (), some 0⟩

/-- C3: on a connected instance with a project, timeline and media-pool
folder open, the first four resources return their status strings, but
`gallery://albums` and `timeline://items` raise `AttributeError` (the
methods they call are trapped inside `create_fusion_node` by the indentation
slip), contradicting the claim that every registered resource returns a
string and never raises. -/
theorem c3_resources_evaluated :
    get_system_status stC3 extC3 =
      Except.ok "Connected: Yes\nProject: P\nTimeline: T" ∧
    project_current_resource stC3 extC3 =
      Except.ok "Name: P\nTimelines: 1" ∧
    timeline_current_resource stC3 extC3 =
      Except.ok "Name: T\nDuration: 11 frames\nVideo Tracks: 2" ∧
    mediapool_current_resource stC3 extC3 =
      Except.ok "Folder: Master\nClips: 2" ∧
    gallery_albums_resource stC3 extC3 =
      Except.error (PyExn.attributeError "get_gallery_albums") ∧
    timeline_items_resource stC3 extC3 =
      Except.error (PyExn.attributeError "get_timeline_items") :=
  ⟨rfl, rfl, rfl, rfl, rfl, rfl⟩

def stC4 : APIState := ⟨none, none, none, none, none, none⟩

def envC4 : ConnectEnv :=
  { scriptPath := some linuxModulesPath
    importModule := Except.ok ()
    scriptapp := Except.error (PyExn.runtimeError "scriptapp crashed")
    getProjectManager := Except.ok (some ())
    getCurrentProject := Except.ok none
    getMediaStorage := Except.ok (some ())
    fusionOf := Except.ok (some ())
    getMediaPool := Except.ok none }

/-- C4 counterexample: the `try` block of `_connect_to_resolve` catches only
`ImportError`; when `scriptapp` raises any other exception, the connect
operation raises it to its caller instead of leaving the handle null. -/
theorem c4_counterexample :
    ResolveAPI.connect_to_resolve stC4 envC4 =
      Except.error (PyExn.runtimeError "scriptapp crashed") := rfl

/-- C4 (amended): `_connect_to_resolve` returns normally — leaving the
application handle null — when no module path is discovered, when the import
or `scriptapp` raises `ImportError`, or when `scriptapp` returns a null
handle; but an exception from `scriptapp` other than `ImportError`
propagates to the caller. -/
theorem c4_amended_connect (s : APIState) (env : ConnectEnv) (e : PyExn) :
    (env.scriptPath = none → ResolveAPI.connect_to_resolve s env = Except.ok s) ∧
    (env.scriptPath ≠ none → env.importModule = Except.error PyExn.importError →
      ResolveAPI.connect_to_resolve s env =
        Except.ok { s with resolve := none }) ∧
    (env.scriptPath ≠ none → env.importModule = Except.ok () →
      env.scriptapp = Except.ok none →
      ResolveAPI.connect_to_resolve s env =
        Except.ok { s with resolve := none }) ∧
    (env.scriptPath ≠ none → env.importModule = Except.ok () →
      env.scriptapp = Except.error e → isImportErr e = false →
      ResolveAPI.connect_to_resolve s env = Except.error e) := by
  refine ⟨fun h => ?_, fun h h2 => ?_, fun h h2 h3 => ?_, fun h h2 h3 h4 => ?_⟩
  · simp [ResolveAPI.connect_to_resolve, h]
  · match hp : env.scriptPath with
    | none => exact absurd hp h
    | some q =>
      simp [ResolveAPI.connect_to_resolve, hp, h2, Except.bind, isImportErr]
  · match hp : env.scriptPath with
    | none => exact absurd hp h
    | some q =>
      simp [ResolveAPI.connect_to_resolve, hp, h2, h3, Except.bind]
  · match hp : env.scriptPath with
    | none => exact absurd hp h
    | some q =>
      simp [ResolveAPI.connect_to_resolve, hp, h2, h3, h4, Except.bind]

def envC4wNoPath : ConnectEnv :=
  { envC4 with scriptPath := none }

def envC4wImportErr : ConnectEnv :=
  { envC4 with importModule := Except.error PyExn.importError }

def envC4wNullApp : ConnectEnv :=
  { envC4 with scriptapp := Except.ok none }

def envC4wOther : ConnectEnv :=
  { envC4 with scriptapp := Except.error (PyExn.runtimeError "no process") }

/-- C4 witness: the amended connect behaviour evaluated on concrete
environments for each of the four cases. -/
theorem c4_amended_connect_witness :
    ResolveAPI.connect_to_resolve stC4 envC4wNoPath = Except.ok stC4 ∧
    ResolveAPI.connect_to_resolve stC4 envC4wImportErr =
      Except.ok { stC4 with resolve := none } ∧
    ResolveAPI.connect_to_resolve stC4 envC4wNullApp =
      Except.ok { stC4 with resolve := none } ∧
    ResolveAPI.connect_to_resolve stC4 envC4wOther =
      Except.error (PyExn.runtimeError "no process") :=
  ⟨(c4_amended_connect stC4 envC4wNoPath PyExn.importError).1 rfl,
   (c4_amended_connect stC4 envC4wImportErr PyExn.importError).2.1
     (by decide) rfl,
   (c4_amended_connect stC4 envC4wNullApp PyExn.importError).2.2.1
     (by decide) rfl rfl,
   (c4_amended_connect stC4 envC4wOther
      (PyExn.runtimeError "no process")).2.2.2 (by decide) rfl rfl rfl⟩

def envC5x : DiscoveryEnv :=
  { resolveScriptPath := none
    programData := none
    homeDir := "/home/u"
    system := "Linux"
    pathExists := fun p => p == linuxModulesPath
    sysPath := [linuxModulesPath] }

/-- C5 counterexample: on Linux with no override, when the single candidate
path exists on disk but is already on `sys.path`, `_find_scripting_module`
returns the not-found sentinel even though a candidate exists — the scan
only returns a candidate that is both existing and absent from `sys.path`. -/
theorem c5_counterexample :
    envC5x.pathExists linuxModulesPath = true ∧
    candidatePaths envC5x = [linuxModulesPath] ∧
    find_scripting_module envC5x = (none, [linuxModulesPath]) :=
  ⟨rfl, rfl, rfl⟩

/-- The first candidate that both exists on disk and is not already on the
module search path. -/
def firstUsableCandidate (env : DiscoveryEnv) : Option String :=
  (candidatePaths env).find?
    (fun q => env.pathExists q && !(env.sysPath.contains q))

/-- C5 (amended): the override path wins when set, non-empty and existing
(returned without touching `sys.path`); otherwise the first candidate that
exists on disk AND is not already on the module search path is appended and
returned, and the not-found sentinel is returned exactly when no candidate
passes both tests. -/
theorem c5_amended_discovery (env : DiscoveryEnv) :
    (∀ p, env.resolveScriptPath = some p →
      (p != "" && env.pathExists p) = true →
      find_scripting_module env = (some p, env.sysPath)) ∧
    (env.resolveScriptPath = none →
      find_scripting_module env =
        (match firstUsableCandidate env with
         | some q => (some q, env.sysPath ++ [q])
         | none => (none, env.sysPath))) ∧
    (∀ p, env.resolveScriptPath = some p →
      (p != "" && env.pathExists p) = false →
      find_scripting_module env =
        (match firstUsableCandidate env with
         | some q => (some q, env.sysPath ++ [q])
         | none => (none, env.sysPath))) := by
  refine ⟨fun p hp h => ?_, fun h => ?_, fun p hp h => ?_⟩
  · simp [find_scripting_module, hp, h]
  · have e1 : find_scripting_module env =
        scanCandidates env.pathExists (candidatePaths env) env.sysPath := by
      rw [find_scripting_module, h]
    rw [e1]
    exact scanCandidates_eq_find? env.pathExists (candidatePaths env)
      env.sysPath
  · have e1 : find_scripting_module env =
        scanCandidates env.pathExists (candidatePaths env) env.sysPath := by
      rw [find_scripting_module, hp]
      show (if (p != "" && env.pathExists p) = true then (some p, env.sysPath)
            else scanCandidates env.pathExists (candidatePaths env) env.sysPath)
          = scanCandidates env.pathExists (candidatePaths env) env.sysPath
      rw [if_neg (by rw [h]; exact Bool.false_ne_true)]
    rw [e1]
    exact scanCandidates_eq_find? env.pathExists (candidatePaths env)
      env.sysPath

def envC5wOverride : DiscoveryEnv :=
  { envC5x with resolveScriptPath := some "/custom/modules"
                pathExists := fun p =>
                  p == "/custom/modules" || p == linuxModulesPath
                sysPath := [] }

def envC5wScan : DiscoveryEnv :=
  { envC5x with sysPath := [] }

/-- C5 witness: the amended discovery behaviour on a concrete environment
with a usable override, and on a concrete Linux environment where the
candidate exists and is not yet on `sys.path`. -/
theorem c5_amended_discovery_witness :
    find_scripting_module envC5wOverride = (some "/custom/modules", []) ∧
    find_scripting_module envC5wScan =
      (match firstUsableCandidate envC5wScan with
       | some q => (some q, envC5wScan.sysPath ++ [q])
       | none => (none, envC5wScan.sysPath)) :=
  ⟨(c5_amended_discovery envC5wOverride).1 "/custom/modules" rfl rfl,
   (c5_amended_discovery envC5wScan).2.1 rfl⟩

/-- C6: `refresh` is idempotent — for every connector state and every fixed
stand-in external state, a first `refresh` returns a state that a second
`refresh` maps to itself (identical derived handles) — and when the
application handle is null at call time, `refresh` first reconnects (the
module being discoverable and `scriptapp` answering) and then derives all
five handles from the live external state. -/
theorem c6_refresh_idempotent (s : APIState) (ext : ExtState) (found : Bool)
    (app : Option Unit) :
    (∃ t, ResolveAPI.refresh s ext found app = Except.ok t ∧
       ResolveAPI.refresh t ext found app = Except.ok t) ∧
    ResolveAPI.refresh (APIState.mk none none none none none none)
        ext true (some ()) =
      Except.ok (APIState.mk (some ()) (some ()) (some ())
        ext.currentProjectIdx (some ()) ext.currentProjectIdx) := by
  obtain ⟨r, f, pm, cp, ms, mp⟩ := s
  obtain ⟨ps, cur, cs⟩ := ext
  constructor
  · cases r with
    | some u => exact ⟨_, rfl, rfl⟩
    | none =>
      cases found with
      | false => exact ⟨_, rfl, rfl⟩
      | true =>
        cases app with
        | none => exact ⟨_, rfl, rfl⟩
        | some u =>
          cases cur with
          | none => exact ⟨_, rfl, rfl⟩
          | some c => exact ⟨_, rfl, rfl⟩
  · cases cur with
    | none => rfl
    | some c => rfl

def stC7 : APIState := ⟨some (), none, none, none, none, none⟩

/-- C7: page-name validation is case-insensitive against the fixed set of
six pages: on a connected instance, `open_page("COLOR")` succeeds and
forwards the lowercased name to the external `OpenPage`; for any argument
whose lowercasing is not in the set, the tool returns the invalid-page
message and the connector forwards nothing. -/
theorem c7_open_page (s : APIState) (hs : s.resolve = some ()) (p : String)
    (hp : valid_pages.contains (pyLower p) = false) :
    server_open_page s "COLOR" = ("Opened \x27COLOR\x27 page.", ["color"]) ∧
    server_open_page s p =
      ("Invalid page. Use: media, edit, fusion, color, fairlight, deliver",
       []) ∧
    ResolveAPI.open_page s p = (false, []) := by
  obtain ⟨r, f, pm, cp, ms, mp⟩ := s
  cases hs
  refine ⟨rfl, ?_, ?_⟩
  · rw [server_open_page, if_pos (by rw [hp]; rfl)]
    rfl
  · rw [ResolveAPI.open_page]
    show (if valid_pages.contains (pyLower p) then (true, [(pyLower p)])
          else (false, [])) = (false, [])
    rw [hp]
    rfl

/-- C7 witness: the validated tool evaluated on a connected instance at
`"COLOR"` and at `"nonexistent"`. -/
theorem c7_open_page_witness :
    server_open_page stC7 "COLOR" = ("Opened \x27COLOR\x27 page.", ["color"]) ∧
    server_open_page stC7 "nonexistent" =
      ("Invalid page. Use: media, edit, fusion, color, fairlight, deliver",
       []) ∧
    ResolveAPI.open_page stC7 "nonexistent" = (false, []) :=
  c7_open_page stC7 rfl "nonexistent" rfl

def extC8 : ExtState :=
  ⟨[⟨"P8", [⟨"T8", [], ["ClipA", "ClipB"], 0, 5, 1⟩], some 0, none, []⟩],
   some 0, true⟩

def stC8 : APIState := ⟨some (), some (), some (), some 0, some (), some 0⟩

/-- C8: on a connected instance whose current timeline's first audio track
holds items named ClipA and ClipB, the `set_audio_volume` tool raises
`AttributeError` for both a present and an absent clip name — the attribute
`get_timeline_items` does not exist on the instance — even though the
intended (nested, unreachable) method body would have listed exactly those
two clips, the first of them named ClipA. -/
theorem c8_set_audio_volume_raises :
    server_set_audio_volume stC8 extC8 "ClipA" (1/2) =
      Except.error (PyExn.attributeError "get_timeline_items") ∧
    server_set_audio_volume stC8 extC8 "ClipZ" 1 =
      Except.error (PyExn.attributeError "get_timeline_items") ∧
    ResolveAPI.get_timeline_items stC8 extC8 "audio" 1 =
      [(0, 0, "audio", 0), (0, 0, "audio", 1)] ∧
    extC8.clipName (0, 0, "audio", 0) = "ClipA" :=
  ⟨rfl, rfl, rfl, rfl⟩

/-- C9: the `create_project` tool on a disconnected connector returns the
fixed not-connected string and makes no external call; on a connected
connector whose stand-in creation succeeds it returns the created-string
after one external call, and afterwards both `get_project_name` and a fresh
`get_current_project` reflect the newly created project. -/
theorem c9_create_project (d : APIState) (hd : d.resolve = none)
    (ext0 : ExtState) (s : APIState) (ext : ExtState)
    (hconn : s.resolve = some ()) (hpm : s.project_manager = some ())
    (hcs : ext.createSucceeds = true) :
    server_create_project d ext0 "Demo" =
      ("Not connected to DaVinci Resolve.", d, ext0, 0) ∧
    (server_create_project s ext "Demo").1 = "Project \x27Demo\x27 created." ∧
    (server_create_project s ext "Demo").2.2.2 = 1 ∧
    ResolveAPI.get_project_name (server_create_project s ext "Demo").2.1
      (server_create_project s ext "Demo").2.2.1 = some "Demo" ∧
    (ResolveAPI.get_current_project (server_create_project s ext "Demo").2.1
      (server_create_project s ext "Demo").2.2.1).2 =
        some ext.projects.length := by
  obtain ⟨dr, df, dpm, dcp, dms, dmp⟩ := d
  cases hd
  obtain ⟨r, f, pm, cp, ms, mp⟩ := s
  cases hconn
  cases hpm
  obtain ⟨ps, cur, cs⟩ := ext
  cases hcs
  refine ⟨rfl, rfl, rfl, ?_, rfl⟩
  · show ResolveAPI.get_project_name
      (APIState.mk (some ()) f (some ()) (some ps.length) ms
        (some ps.length))
      (ExtState.mk (ps ++ [ExtProject.mk "Demo" [] none none []])
        (some ps.length) true) = some "Demo"
    rw [ResolveAPI.get_project_name]
    show some (ExtState.projNameAt
      (ExtState.mk (ps ++ [ExtProject.mk "Demo" [] none none []])
        (some ps.length) true) ps.length) = some "Demo"
    rw [ExtState.projNameAt]
    show some ((((ps ++ [ExtProject.mk "Demo" [] none none []]).get?
      ps.length).map ExtProject.projName).getD "") = some "Demo"
    rw [get?_append_singleton]
    rfl

def stC9d : APIState := ⟨none, none, none, none, none, none⟩

def extC9 : ExtState := ⟨[⟨"Existing", [], none, none, []⟩], some 0, true⟩

def stC9 : APIState := ⟨some (), some (), some (), some 0, some (), some 0⟩

/-- C9 witness: the end-to-end behaviour evaluated on a concrete
disconnected connector and on a concrete connected connector with one
pre-existing project. -/
theorem c9_create_project_witness :
    server_create_project stC9d extC9 "Demo" =
      ("Not connected to DaVinci Resolve.", stC9d, extC9, 0) ∧
    (server_create_project stC9 extC9 "Demo").1 =
      "Project \x27Demo\x27 created." ∧
    (server_create_project stC9 extC9 "Demo").2.2.2 = 1 ∧
    ResolveAPI.get_project_name (server_create_project stC9 extC9 "Demo").2.1
      (server_create_project stC9 extC9 "Demo").2.2.1 = some "Demo" ∧
    (ResolveAPI.get_current_project
      (server_create_project stC9 extC9 "Demo").2.1
      (server_create_project stC9 extC9 "Demo").2.2.1).2 =
        some extC9.projects.length :=
  c9_create_project stC9d rfl extC9 stC9 extC9 rfl rfl rfl

def extC10 : ExtState :=
  ⟨[⟨"Old", [⟨"TOld", [], [], 0, 1, 1⟩], some 0, none, []⟩,
    ⟨"New", [], none, none, []⟩], some 1, true⟩

def stC10 : APIState := ⟨some (), some (), some (), some 0, some (), some 0⟩

/-- C10 counterexample: with the external current project switched to
project 1 ("New") while the connector still caches project 0 ("Old"),
`get_project_name` answers "Old" and `get_current_timeline` answers project
0's timeline — both read the cached current-project handle instead of
re-deriving it from the project manager, so the external change is not
observed. -/
theorem c10_counterexample :
    extC10.currentProjectIdx = some 1 ∧
    extC10.projNameAt 1 = "New" ∧
    ResolveAPI.get_project_name stC10 extC10 = some "Old" ∧
    ResolveAPI.get_current_timeline stC10 extC10 = some (0, 0) ∧
    extC10.currentTimelineOf 1 = none := ⟨rfl, rfl, rfl, rfl, rfl⟩

/-- C10 (amended): `get_current_project` does re-derive the current project
from the project manager at call time, and `get_media_pool` re-derives the
pool from its own parent handle; but `get_project_name` and
`get_current_timeline` answer from the cached current-project handle
without re-querying the project manager, so an external project switch is
observed by them only after `get_current_project` or `refresh` has run. -/
theorem c10_amended_rederivation (s : APIState) (ext : ExtState) (h : Nat) :
    (s.project_manager = some () →
      (ResolveAPI.get_current_project s ext).2 = ext.currentProjectIdx) ∧
    (s.current_project = some h →
      ResolveAPI.get_project_name s ext = some (ext.projNameAt h)) ∧
    (s.current_project = some h →
      ResolveAPI.get_current_timeline s ext = ext.currentTimelineOf h) ∧
    (s.current_project = some h →
      (ResolveAPI.get_media_pool s ext).2 = some h) := by
  refine ⟨fun hpm => ?_, fun hcp => ?_, fun hcp => ?_, fun hcp => ?_⟩
  · simp [ResolveAPI.get_current_project, hpm]
  · simp [ResolveAPI.get_project_name, hcp]
  · simp [ResolveAPI.get_current_timeline, hcp]
  · simp [ResolveAPI.get_media_pool, hcp]

/-- C10 witness: the amended derivation behaviour evaluated on the stale
connector fixture: the fresh `get_current_project` sees the switch to
project 1 while the name and timeline reads keep answering from the cached
project 0. -/
theorem c10_amended_rederivation_witness :
    (ResolveAPI.get_current_project stC10 extC10).2 =
      extC10.currentProjectIdx ∧
    ResolveAPI.get_project_name stC10 extC10 =
      some (extC10.projNameAt 0) ∧
    ResolveAPI.get_current_timeline stC10 extC10 =
      extC10.currentTimelineOf 0 ∧
    (ResolveAPI.get_media_pool stC10 extC10).2 = some 0 :=
  ⟨(c10_amended_rederivation stC10 extC10 0).1 rfl,
   (c10_amended_rederivation stC10 extC10 0).2.1 rfl,
   (c10_amended_rederivation stC10 extC10 0).2.2.1 rfl,
   (c10_amended_rederivation stC10 extC10 0).2.2.2 rfl⟩
